import Mathlib

/-!
Shallow embedding of the EcoFinds checkout component
(src/ecofinds-backend/seed-data.js, server half).

The database state is the set of tables the checkout flow touches
(products, purchases, cart, plus the user ids needed by the history
join).  Each SQL statement of the source is one Lean function on that
state; each Express route handler is a function from state and request
fields to a response paired with the successor state.  Requests execute
against a single SQLite connection whose statements run in the order
they are queued, so one request is a deterministic sequence of atomic
statements; the two-phase decomposition of the buy-now handler
(buyNowCheckPhase / buyNowTxn) exposes the statement boundaries at
which statements of a second request can interleave.
-/

namespace EcoFinds

/-- Lifecycle status of a product (products.status column, default available). -/
inductive Status where
  | available
  | sold
  deriving DecidableEq, Repr

/-- Row of the products table, restricted to the columns the checkout flow reads
(id, user_id, price DECIMAL, status). -/
structure Product where
  id : Nat
  user_id : Nat
  price : ℚ
  status : Status
  deriving DecidableEq, Repr

/-- Row of the purchases table (id AUTOINCREMENT, buyer_id, product_id, seller_id,
price snapshot).  The table declares no uniqueness on product_id. -/
structure Purchase where
  id : Nat
  buyer_id : Nat
  product_id : Nat
  seller_id : Nat
  price : ℚ
  deriving DecidableEq, Repr

/-- Row of the cart table: UNIQUE(user_id, product_id). -/
structure CartEntry where
  user_id : Nat
  product_id : Nat
  deriving DecidableEq, Repr

/-- Database state: the tables the checkout flow touches.  users is the list of
existing user ids (needed by the purchase-history join); nextPurchaseId models
the AUTOINCREMENT counter of the purchases table. -/
structure DB where
  users : List Nat
  products : List Product
  purchases : List Purchase
  cart : List CartEntry
  nextPurchaseId : Nat
  deriving DecidableEq, Repr

/-- Embeds the query SELECT * FROM products WHERE id = ? AND status = "available"
(lines 1059 and 1110 of seed-data.js). -/
def getAvailableProduct (db : DB) (pid : Nat) : Option Product :=
  db.products.find? (fun p => decide (p.id = pid ∧ p.status = Status.available))

/-- Embeds INSERT INTO purchases (buyer_id, product_id, seller_id, price)
VALUES (?, ?, ?, ?) (lines 1066-1068 and 1127-1129); returns the new state and
this.lastID. -/
def insertPurchase (db : DB) (buyerId productId sellerId : Nat) (price : ℚ) :
    DB × Nat :=
  ({ db with
      purchases :=
        db.purchases ++ [⟨db.nextPurchaseId, buyerId, productId, sellerId, price⟩],
      nextPurchaseId := db.nextPurchaseId + 1 },
   db.nextPurchaseId)

/-- Embeds UPDATE products SET status = "sold" WHERE id = ? (lines 1074 and 1137).
The update is guarded only by the product id, not by the current status. -/
def setSold (db : DB) (pid : Nat) : DB :=
  { db with
      products := db.products.map
        (fun p => if p.id = pid then { p with status := Status.sold } else p) }

/-- Embeds DELETE FROM cart WHERE user_id = ? AND product_id = ? (line 1076). -/
def deleteCart (db : DB) (userId productId : Nat) : DB :=
  { db with
      cart := db.cart.filter
        (fun e => !(decide (e.user_id = userId ∧ e.product_id = productId))) }

/-- Outcome of the SELECT callback of POST /api/buy-now before its transaction
starts (lines 1110-1121): the product is missing or not available, or it is
owned by the requester, or the handler proceeds with the fetched snapshot. -/
inductive BuyNowCheck where
  | unavailable
  | ownProduct
  | ok (product : Product)
  deriving DecidableEq, Repr

/-- Embeds the validation part of the POST /api/buy-now handler (lines
1110-1121): one SELECT followed by the self-purchase test on the snapshot. -/
def buyNowCheckPhase (db : DB) (userId pid : Nat) : BuyNowCheck :=
  match getAvailableProduct db pid with
  | none => BuyNowCheck.unavailable
  | some product =>
      if product.user_id = userId then BuyNowCheck.ownProduct
      else BuyNowCheck.ok product

/-- Embeds the transaction of POST /api/buy-now (lines 1123-1143): BEGIN, INSERT
the purchase row built from the snapshot, set the product sold, COMMIT.  Returns
the new state and the lastID of the inserted row.  Neither statement re-checks
the current status of the product. -/
def buyNowTxn (db : DB) (userId pid : Nat) (product : Product) : DB × Nat :=
  let r := insertPurchase db userId pid product.user_id product.price
  (setSold r.1 pid, r.2)

/-- Responses of POST /api/buy-now (lines 1099-1156). -/
inductive BuyNowResponse where
  | missingProductId
  | missingPaymentMethod
  | notFoundOrUnavailable
  | ownProduct
  | success (purchase_id : Nat) (product : Product) (payment_method : String)
      (total_amount : ℚ)
  deriving DecidableEq, Repr

/-- HTTP status code attached to each buy-now response in the source. -/
def BuyNowResponse.httpStatus : BuyNowResponse → Nat
  | BuyNowResponse.missingProductId => 400
  | BuyNowResponse.missingPaymentMethod => 400
  | BuyNowResponse.notFoundOrUnavailable => 404
  | BuyNowResponse.ownProduct => 400
  | BuyNowResponse.success _ _ _ _ => 200

/-- Embeds the POST /api/buy-now handler (lines 1099-1156).  The request body
fields are Option-valued to model missing fields; the two phases run back to
back within this single request. -/
def buyNow (db : DB) (userId : Nat) (product_id : Option Nat)
    (payment_method : Option String) : BuyNowResponse × DB :=
  match product_id with
  | none => (BuyNowResponse.missingProductId, db)
  | some pid =>
    match payment_method with
    | none => (BuyNowResponse.missingPaymentMethod, db)
    | some pm =>
      match buyNowCheckPhase db userId pid with
      | BuyNowCheck.unavailable => (BuyNowResponse.notFoundOrUnavailable, db)
      | BuyNowCheck.ownProduct => (BuyNowResponse.ownProduct, db)
      | BuyNowCheck.ok product =>
          let r := buyNowTxn db userId pid product
          (BuyNowResponse.success r.2 product pm product.price, r.1)

/-- Outcome of one iteration of the forEach SELECT callback of
POST /api/purchase (lines 1058-1064): either an error string is pushed, or the
iteration proceeds to queue the INSERT with the fetched snapshot. -/
inductive ItemCheck where
  | failed (msg : String)
  | valid (pid : Nat) (product : Product)
  deriving DecidableEq, Repr

/-- Embeds one iteration of the validation loop of POST /api/purchase (lines
1058-1064), reproducing the error strings of the source. -/
def checkItem (db : DB) (userId pid : Nat) : ItemCheck :=
  match getAvailableProduct db pid with
  | none =>
      ItemCheck.failed ("Product " ++ toString pid ++ " not found or unavailable")
  | some product =>
      if product.user_id = userId then
        ItemCheck.failed ("Cannot purchase your own product " ++ toString pid)
      else ItemCheck.valid pid product

/-- Embeds the INSERT callback body of POST /api/purchase for one validated
item (lines 1066-1077): insert the purchase row from the snapshot, set the
product sold, delete the buyer cart row. -/
def commitItem (db : DB) (userId : Nat) (item : Nat × Product) : DB :=
  deleteCart (buyNowTxn db userId item.1 item.2).1 userId item.1

/-- Responses of POST /api/purchase (lines 1045-1096).  noResponse records the
execution in which the handler never calls res: the completion check of line
1081 sits inside the INSERT callback only, so when no item passes validation it
never runs and the request is left without an answer (and the transaction of
line 1053 is left open). -/
inductive PurchaseResponse where
  | missingProductIds
  | batchFailed (details : List String)
  | success (purchased : Nat)
  | noResponse
  deriving DecidableEq, Repr

/-- HTTP status code of each purchase response; none when no response is sent. -/
def PurchaseResponse.httpStatus : PurchaseResponse → Option Nat
  | PurchaseResponse.missingProductIds => some 400
  | PurchaseResponse.batchFailed _ => some 400
  | PurchaseResponse.success _ => some 200
  | PurchaseResponse.noResponse => none

/-- The error field of the JSON body of each purchase response. -/
def PurchaseResponse.errorMsg : PurchaseResponse → Option String
  | PurchaseResponse.missingProductIds => some "Product IDs array is required"
  | PurchaseResponse.batchFailed _ => some "Purchase failed"
  | PurchaseResponse.success _ => none
  | PurchaseResponse.noResponse => none

/-- The details field of the JSON body of each purchase response; only the
batch-failure body carries one. -/
def PurchaseResponse.detailsField : PurchaseResponse → Option (List String)
  | PurchaseResponse.batchFailed d => some d
  | _ => none

/-- Outcomes of all SELECT callbacks of POST /api/purchase, in request order;
the callbacks all run before any queued INSERT, so each reads the
pre-transaction state. -/
def checkResults (db : DB) (userId : Nat) (pids : List Nat) : List ItemCheck :=
  pids.map (checkItem db userId)

/-- Error strings accumulated by the validation loop (the errors array of line
1056), in request order. -/
def batchErrors (db : DB) (userId : Nat) (pids : List Nat) : List String :=
  (checkResults db userId pids).filterMap
    (fun r => match r with
      | ItemCheck.failed m => some m
      | ItemCheck.valid _ _ => none)

/-- Validated items (id with its snapshot) whose INSERT callback is queued, in
request order. -/
def batchValids (db : DB) (userId : Nat) (pids : List Nat) :
    List (Nat × Product) :=
  (checkResults db userId pids).filterMap
    (fun r => match r with
      | ItemCheck.failed _ => none
      | ItemCheck.valid q product => some (q, product))

/-- Embeds the POST /api/purchase handler (lines 1045-1096) as it executes on
the serialized connection: the guard of line 1048 (product_ids missing, not an
array, or empty — the first two collapse to none here); then all SELECT
callbacks run, in order, against the pre-transaction state, collecting error
strings and snapshots; then the queued INSERTs with their status updates and
cart deletions; finally the completion check of line 1081 fires in the last
INSERT callback — ROLLBACK and a 400 with the collected details when any error
was pushed, COMMIT and a success body otherwise.  When every item failed
validation no INSERT callback exists, so the completion check never runs: no
response is ever sent, and no write was made. -/
def purchase (db : DB) (userId : Nat) (product_ids : Option (List Nat)) :
    PurchaseResponse × DB :=
  match product_ids with
  | none => (PurchaseResponse.missingProductIds, db)
  | some pids =>
    if pids.isEmpty then (PurchaseResponse.missingProductIds, db)
    else if (batchErrors db userId pids).isEmpty then
      (PurchaseResponse.success (batchValids db userId pids).length,
       (batchValids db userId pids).foldl (fun d it => commitItem d userId it) db)
    else if (batchValids db userId pids).isEmpty then
      (PurchaseResponse.noResponse, db)
    else (PurchaseResponse.batchFailed (batchErrors db userId pids), db)

/-- Responses of DELETE /api/products/:id (lines 964-976). -/
inductive DeleteResponse where
  | notFoundOrUnauthorized
  | deleted
  deriving DecidableEq, Repr

/-- Embeds the DELETE /api/products/:id handler (lines 964-976): DELETE FROM
products WHERE id = ? AND user_id = ?, then 404 when this.changes is zero.  No
condition on the product status appears. -/
def deleteProduct (db : DB) (userId pid : Nat) : DeleteResponse × DB :=
  let remaining := db.products.filter
    (fun p => !(decide (p.id = pid ∧ p.user_id = userId)))
  if remaining.length = db.products.length then
    (DeleteResponse.notFoundOrUnauthorized, db)
  else (DeleteResponse.deleted, { db with products := remaining })

/-- Contribution of one purchases row to the GET /api/purchases result: the row
survives when it belongs to the requester and both inner joins (to products on
product_id, to users on seller_id) find a partner. -/
def historyRow (db : DB) (buyerId : Nat) (pu : Purchase) :
    Option (Purchase × Product) :=
  if pu.buyer_id = buyerId then
    match db.products.find? (fun pr => decide (pr.id = pu.product_id)) with
    | some pr =>
        if db.users.contains pu.seller_id then some (pu, pr) else none
    | none => none
  else none

/-- Embeds the GET /api/purchases query (lines 1159-1175): purchases of the
requester inner-joined to products on product_id and to users on seller_id
(the DESC ordering by date is immaterial to membership and not modelled). -/
def purchaseHistory (db : DB) (buyerId : Nat) : List (Purchase × Product) :=
  db.purchases.filterMap (historyRow db buyerId)

/-- Number of purchase rows referencing a given product. -/
def purchaseCount (db : DB) (pid : Nat) : Nat :=
  (db.purchases.filter (fun pu => decide (pu.product_id = pid))).length

/-- Invariant of claim C3: a product is sold exactly when some purchase row
references it. -/
def soldMatched (db : DB) : Prop :=
  ∀ p ∈ db.products,
    (p.status = Status.sold ↔ ∃ pu ∈ db.purchases, pu.product_id = p.id)

instance soldMatchedDecidable (db : DB) : Decidable (soldMatched db) := by
  unfold soldMatched
  infer_instance

/-- Test state: users 1, 2, 3; user 1 lists product 1 at price 10, available;
user 2 holds it in the cart. -/
def dbAvail : DB :=
  ⟨[1, 2, 3], [⟨1, 1, 10, Status.available⟩], [], [⟨2, 1⟩], 1⟩

/-- Test state: product 1 of user 1 is available, product 2 of user 1 is sold
with purchase row 1 recording that buyer 3 bought it at price 7. -/
def dbTwo : DB :=
  ⟨[1, 2, 3], [⟨1, 1, 5, Status.available⟩, ⟨2, 1, 7, Status.sold⟩],
   [⟨1, 3, 2, 1, 7⟩], [], 2⟩

/-- Test state: user 2 owns the available product 1, so a purchase attempt by
user 2 is a self-purchase. -/
def dbSelf : DB :=
  ⟨[1, 2, 3], [⟨1, 2, 9, Status.available⟩], [], [], 1⟩

theorem getAvailableProduct_some {db : DB} {pid : Nat} {p : Product}
    (h : getAvailableProduct db pid = some p) :
    p ∈ db.products ∧ p.id = pid ∧ p.status = Status.available := by
  have h' : db.products.find?
      (fun q => decide (q.id = pid ∧ q.status = Status.available)) = some p := h
  have h2 := List.find?_some h'
  simp only [decide_eq_true_eq] at h2
  exact ⟨List.mem_of_find?_eq_some h', h2⟩

theorem buyNowTxn_products (db : DB) (u pid : Nat) (prod : Product) :
    (buyNowTxn db u pid prod).1.products
      = db.products.map
          (fun p => if p.id = pid then { p with status := Status.sold } else p) :=
  rfl

theorem buyNowTxn_purchases (db : DB) (u pid : Nat) (prod : Product) :
    (buyNowTxn db u pid prod).1.purchases
      = db.purchases ++ [⟨db.nextPurchaseId, u, pid, prod.user_id, prod.price⟩] :=
  rfl

theorem buyNowTxn_cart (db : DB) (u pid : Nat) (prod : Product) :
    (buyNowTxn db u pid prod).1.cart = db.cart :=
  rfl

theorem buyNowTxn_lastId (db : DB) (u pid : Nat) (prod : Product) :
    (buyNowTxn db u pid prod).2 = db.nextPurchaseId :=
  rfl

theorem commitItem_products (db : DB) (u : Nat) (it : Nat × Product) :
    (commitItem db u it).products
      = db.products.map
          (fun p => if p.id = it.1 then { p with status := Status.sold } else p) :=
  rfl

theorem commitItem_purchases (db : DB) (u : Nat) (it : Nat × Product) :
    (commitItem db u it).purchases
      = db.purchases ++ [⟨db.nextPurchaseId, u, it.1, it.2.user_id, it.2.price⟩] :=
  rfl

theorem commitItem_cart (db : DB) (u : Nat) (it : Nat × Product) :
    (commitItem db u it).cart
      = db.cart.filter
          (fun e => !(decide (e.user_id = u ∧ e.product_id = it.1))) :=
  rfl

theorem soldMatched_after {db db' : DB} {pid : Nat} {newPu : Purchase}
    (hpr : db'.products
      = db.products.map
          (fun p => if p.id = pid then { p with status := Status.sold } else p))
    (hpu : db'.purchases = db.purchases ++ [newPu])
    (hid : newPu.product_id = pid)
    (h : soldMatched db) : soldMatched db' := by
  intro q hq
  rw [hpr] at hq
  obtain ⟨p, hp, hq'⟩ := List.mem_map.mp hq
  subst hq'
  rw [hpu]
  by_cases hcase : p.id = pid
  · rw [if_pos hcase]
    constructor
    · intro _
      refine ⟨newPu, List.mem_append.mpr (Or.inr (List.mem_singleton.mpr rfl)), ?_⟩
      rw [hid]
      exact hcase.symm
    · intro _
      rfl
  · rw [if_neg hcase]
    have horig := h p hp
    constructor
    · intro hs
      obtain ⟨pu, hpu2, hpid⟩ := horig.mp hs
      exact ⟨pu, List.mem_append.mpr (Or.inl hpu2), hpid⟩
    · rintro ⟨pu, hpu2, hpid⟩
      rcases List.mem_append.mp hpu2 with hl | hr
      · exact horig.mpr ⟨pu, hl, hpid⟩
      · rw [List.mem_singleton.mp hr, hid] at hpid
        exact absurd hpid.symm hcase

theorem soldMatched_commitItem (db : DB) (u : Nat) (it : Nat × Product)
    (h : soldMatched db) : soldMatched (commitItem db u it) :=
  soldMatched_after (commitItem_products db u it) (commitItem_purchases db u it)
    rfl h

theorem soldMatched_buyNowTxn (db : DB) (u pid : Nat) (prod : Product)
    (h : soldMatched db) : soldMatched (buyNowTxn db u pid prod).1 :=
  soldMatched_after (buyNowTxn_products db u pid prod)
    (buyNowTxn_purchases db u pid prod) rfl h

theorem soldMatched_foldl (u : Nat) (l : List (Nat × Product)) :
    ∀ db : DB, soldMatched db →
      soldMatched (l.foldl (fun d it => commitItem d u it) db) := by
  induction l with
  | nil => intro db h; exact h
  | cons it tl ih => intro db h; exact ih _ (soldMatched_commitItem db u it h)

theorem checkItem_valid_pid {db : DB} {u q a : Nat} {prod : Product}
    (h : checkItem db u q = ItemCheck.valid a prod) : a = q := by
  unfold checkItem at h
  split at h
  · cases h
  · split at h
    · cases h
    · injection h with h1 _
      exact h1.symm

theorem purchase_success_inv {db : DB} {u : Nat} {pids : List Nat} {n : Nat}
    (h : (purchase db u (some pids)).1 = PurchaseResponse.success n) :
    (batchErrors db u pids).isEmpty = true ∧
    (purchase db u (some pids)).2
      = (batchValids db u pids).foldl (fun d it => commitItem d u it) db := by
  by_cases h1 : pids.isEmpty
  · simp [purchase, h1] at h
  · by_cases h2 : (batchErrors db u pids).isEmpty
    · exact ⟨h2, by simp [purchase, h1, h2]⟩
    · by_cases h3 : (batchValids db u pids).isEmpty
      · simp [purchase, h1, h2, h3] at h
      · simp [purchase, h1, h2, h3] at h

theorem batchErrors_empty_valid {db : DB} {u : Nat} {pids : List Nat}
    (h : (batchErrors db u pids).isEmpty = true) :
    ∀ q ∈ pids, ∃ prod, (q, prod) ∈ batchValids db u pids := by
  intro q hq
  have hnil : batchErrors db u pids = [] := List.isEmpty_iff.mp h
  have hall := List.filterMap_eq_nil_iff.mp hnil
  have hmem : checkItem db u q ∈ checkResults db u pids :=
    List.mem_map_of_mem (checkItem db u) hq
  cases hck : checkItem db u q with
  | failed m =>
      exfalso
      have hfm := hall _ hmem
      rw [hck] at hfm
      simp at hfm
  | valid a prod =>
      have ha : a = q := checkItem_valid_pid hck
      subst ha
      refine ⟨prod, List.mem_filterMap.mpr ⟨ItemCheck.valid a prod, ?_, rfl⟩⟩
      rw [← hck]
      exact hmem

theorem foldl_cart_subset (u : Nat) (l : List (Nat × Product)) :
    ∀ (db : DB) (e : CartEntry),
      e ∈ (l.foldl (fun d it => commitItem d u it) db).cart → e ∈ db.cart := by
  induction l with
  | nil => intro db e he; exact he
  | cons it tl ih =>
      intro db e he
      have h1 := ih (commitItem db u it) e he
      rw [commitItem_cart] at h1
      exact (List.mem_filter.mp h1).1

theorem foldl_cart_cleared (u : Nat) (l : List (Nat × Product)) :
    ∀ (db : DB) (q : Nat), (∃ prod, (q, prod) ∈ l) →
      ∀ e ∈ (l.foldl (fun d it => commitItem d u it) db).cart,
        ¬ (e.user_id = u ∧ e.product_id = q) := by
  induction l with
  | nil =>
      rintro db q ⟨prod, hmem⟩ e he hcontra
      cases hmem
  | cons hd tl ih =>
      rintro db q ⟨prod, hmem⟩ e he hcontra
      rcases List.mem_cons.mp hmem with heq | htl
      · have hsub := foldl_cart_subset u tl (commitItem db u hd) e he
        rw [commitItem_cart] at hsub
        have hpred := (List.mem_filter.mp hsub).2
        have hd1 : hd.1 = q := by rw [← heq]
        simp [hd1, hcontra.1, hcontra.2] at hpred
      · exact ih (commitItem db u hd) q ⟨prod, htl⟩ e he hcontra

theorem map_setSold_status {l : List Product} {pid : Nat} :
    ∀ q ∈ l.map
        (fun p => if p.id = pid then { p with status := Status.sold } else p),
      q.id = pid → q.status = Status.sold := by
  intro q hq hid
  obtain ⟨p, hp, hq'⟩ := List.mem_map.mp hq
  subst hq'
  by_cases hcase : p.id = pid
  · simp [if_pos hcase]
  · rw [if_neg hcase] at hid
    exact absurd hid hcase

theorem getAvailableProduct_none {db : DB} {pid : Nat}
    (hall : ∀ q ∈ db.products, q.id = pid → q.status = Status.sold) :
    getAvailableProduct db pid = none := by
  unfold getAvailableProduct
  rw [List.find?_eq_none]
  intro x hx
  simp only [decide_eq_true_eq, not_and]
  intro hid hav
  have hs := hall x hx hid
  rw [hav] at hs
  cases hs

theorem historyRow_some {db : DB} {b : Nat} {pu : Purchase}
    {e : Purchase × Product} (h : historyRow db b pu = some e) :
    e.1 = pu ∧ e.2 ∈ db.products ∧ e.2.id = pu.product_id := by
  unfold historyRow at h
  split at h
  · split at h
    · rename_i pr hfind
      split at h
      · injection h with h1
        subst h1
        have hmem := List.mem_of_find?_eq_some hfind
        have hprop := List.find?_some hfind
        simp only [decide_eq_true_eq] at hprop
        exact ⟨rfl, hmem, hprop⟩
      · cases h
    · cases h
  · cases h

/-- C1: the claim that every purchase batch containing a failing product ends
in a 400 error reporting the failures breaks when every product in the batch
fails validation: the completion check of line 1081 lives only inside the
INSERT callback, so with no validated product no response is ever sent.  The
state is still unchanged, and a mixed batch (one valid, one sold product) does
roll back and answer 400 with the per-product details as the claim says. -/
theorem all_invalid_batch_no_response :
    purchase dbTwo 3 (some [2]) = (PurchaseResponse.noResponse, dbTwo) ∧
    PurchaseResponse.httpStatus (purchase dbTwo 3 (some [2])).1 = none ∧
    (purchase dbTwo 3 (some [1, 2])).1
      = PurchaseResponse.batchFailed ["Product 2 not found or unavailable"] ∧
    (purchase dbTwo 3 (some [1, 2])).2 = dbTwo := by
  decide

/-- C2: the availability check and the status mutation are not one atomic
conditional update: the SELECT of line 1110 and the transaction of lines
1123-1143 are separate statements, and the UPDATE of line 1137 is guarded only
by the product id.  In the interleaving where both SELECT callbacks of two
concurrent buy-now requests for product 1 run before either transaction, both
checks observe the available snapshot, both transactions commit, and two
purchase rows reference the product — not exactly one success. -/
theorem concurrent_buyNow_double_sale :
    buyNowCheckPhase dbAvail 2 1 = BuyNowCheck.ok ⟨1, 1, 10, Status.available⟩ ∧
    buyNowCheckPhase dbAvail 3 1 = BuyNowCheck.ok ⟨1, 1, 10, Status.available⟩ ∧
    purchaseCount
      ((buyNowTxn (buyNowTxn dbAvail 2 1 ⟨1, 1, 10, Status.available⟩).1
          3 1 ⟨1, 1, 10, Status.available⟩).1) 1 = 2 := by
  decide

/-- C3: both checkout operations preserve the invariant that a product has
status sold exactly when some purchase row references it, whatever the request
and whether it succeeds, fails, or gets no response. -/
theorem purchase_buyNow_preserve_soldMatched (db : DB) (u : Nat)
    (ids : Option (List Nat)) (pid : Option Nat) (pm : Option String)
    (h : soldMatched db) :
    soldMatched (purchase db u ids).2 ∧ soldMatched (buyNow db u pid pm).2 := by
  constructor
  · cases ids with
    | none => exact h
    | some pids =>
        by_cases h1 : pids.isEmpty
        · simpa [purchase, h1] using h
        · by_cases h2 : (batchErrors db u pids).isEmpty
          · simpa [purchase, h1, h2] using
              soldMatched_foldl u (batchValids db u pids) db h
          · by_cases h3 : (batchValids db u pids).isEmpty
            · simpa [purchase, h1, h2, h3] using h
            · simpa [purchase, h1, h2, h3] using h
  · cases pid with
    | none => exact h
    | some q =>
        cases pm with
        | none => exact h
        | some pmv =>
            cases hc : buyNowCheckPhase db u q with
            | unavailable => simpa [buyNow, hc] using h
            | ownProduct => simpa [buyNow, hc] using h
            | ok product =>
                simpa [buyNow, hc] using soldMatched_buyNowTxn db u q product h

/-- Witness for C3 at a concrete state with one sold and one available
product. -/
theorem purchase_buyNow_preserve_soldMatched_witness :
    soldMatched dbTwo ∧
      (soldMatched (purchase dbTwo 3 (some [1])).2 ∧
       soldMatched (buyNow dbTwo 3 (some 1) (some "card")).2) :=
  ⟨by decide,
   purchase_buyNow_preserve_soldMatched dbTwo 3 (some [1]) (some 1) (some "card")
     (by decide)⟩

/-- C4: a self-purchase through the batch endpoint creates no purchase row and
changes nothing, but contrary to the claim it does not fail with an error
response: the single item fails validation, the completion check never runs,
and no response is sent; the buy-now endpoint does answer the 400 error. -/
theorem self_purchase_batch_no_response :
    purchase dbSelf 2 (some [1]) = (PurchaseResponse.noResponse, dbSelf) ∧
    (buyNow dbSelf 2 (some 1) (some "card")).1 = BuyNowResponse.ownProduct ∧
    (buyNow dbSelf 2 (some 1) (some "card")).2 = dbSelf := by
  decide

/-- C5: when the SELECT finds the product available and it is not owned by the
buyer, buy-now answers success carrying the fresh purchase id, the echoed product
snapshot, the payment method, and a total equal to the product price; the
purchase row snapshots the owner as seller and the price, and the product ends
sold. -/
theorem buyNow_success_spec (db : DB) (u pid : Nat) (pm : String) (p : Product)
    (hget : getAvailableProduct db pid = some p) (hown : ¬ p.user_id = u) :
    (buyNow db u (some pid) (some pm)).1
      = BuyNowResponse.success db.nextPurchaseId p pm p.price ∧
    (⟨db.nextPurchaseId, u, pid, p.user_id, p.price⟩ : Purchase)
      ∈ (buyNow db u (some pid) (some pm)).2.purchases ∧
    ∀ q ∈ (buyNow db u (some pid) (some pm)).2.products,
      q.id = pid → q.status = Status.sold := by
  have hc : buyNowCheckPhase db u pid = BuyNowCheck.ok p := by
    simp [buyNowCheckPhase, hget, hown]
  have hred : buyNow db u (some pid) (some pm)
      = (BuyNowResponse.success db.nextPurchaseId p pm p.price,
         (buyNowTxn db u pid p).1) := by
    simp [buyNow, hc, buyNowTxn_lastId]
  refine ⟨by simp [hred], ?_, ?_⟩
  · simp only [hred]
    rw [buyNowTxn_purchases]
    exact List.mem_append.mpr (Or.inr (List.mem_singleton.mpr rfl))
  · intro q hq hid
    simp only [hred, buyNowTxn_products] at hq
    exact map_setSold_status q hq hid

/-- Witness for C5: user 2 buys product 1 of user 1 at price 10. -/
theorem buyNow_success_spec_witness :
    getAvailableProduct dbAvail 1 = some ⟨1, 1, 10, Status.available⟩ ∧
    ¬ (1 : Nat) = 2 ∧
    ((buyNow dbAvail 2 (some 1) (some "paypal")).1
        = BuyNowResponse.success 1 ⟨1, 1, 10, Status.available⟩ "paypal" 10 ∧
      (⟨1, 2, 1, 1, 10⟩ : Purchase)
        ∈ (buyNow dbAvail 2 (some 1) (some "paypal")).2.purchases ∧
      ∀ q ∈ (buyNow dbAvail 2 (some 1) (some "paypal")).2.products,
        q.id = 1 → q.status = Status.sold) :=
  ⟨by decide, by decide,
   buyNow_success_spec dbAvail 2 1 "paypal" ⟨1, 1, 10, Status.available⟩
     (by decide) (by decide)⟩

/-- C6 counterexample: a successful buy-now sells product 1 yet the cart row of
buyer 2 for product 1 survives, so a sold product is still referenced by a
CartEntry, against the claim. -/
theorem buyNow_leaves_cart_entry :
    BuyNowResponse.httpStatus (buyNow dbAvail 2 (some 1) (some "paypal")).1
      = 200 ∧
    (∀ p ∈ (buyNow dbAvail 2 (some 1) (some "paypal")).2.products,
      p.status = Status.sold) ∧
    (buyNow dbAvail 2 (some 1) (some "paypal")).2.cart = [⟨2, 1⟩] := by
  decide

/-- C6 amended: a successful batch purchase deletes the cart rows of the buyer
for every product of the batch, while buy-now leaves the cart table untouched in
every branch (cart rows of other users referencing a sold product also
survive; the cart listing merely filters them out by status). -/
theorem purchase_clears_buyer_cart (db : DB) (u n : Nat) (pids : List Nat)
    (pid : Option Nat) (pm : Option String)
    (h : (purchase db u (some pids)).1 = PurchaseResponse.success n) :
    (∀ q ∈ pids, ∀ e ∈ (purchase db u (some pids)).2.cart,
        ¬ (e.user_id = u ∧ e.product_id = q)) ∧
    (buyNow db u pid pm).2.cart = db.cart := by
  obtain ⟨h2, hsnd⟩ := purchase_success_inv h
  refine ⟨?_, ?_⟩
  · intro q hq e he
    rw [hsnd] at he
    exact foldl_cart_cleared u (batchValids db u pids) db q
      (batchErrors_empty_valid h2 q hq) e he
  · cases pid with
    | none => rfl
    | some pq =>
        cases pm with
        | none => rfl
        | some pmv =>
            cases hc : buyNowCheckPhase db u pq with
            | unavailable => simp [buyNow, hc]
            | ownProduct => simp [buyNow, hc]
            | ok prod => simp [buyNow, hc, buyNowTxn_cart]

/-- Witness for the amended C6: buyer 2 purchases product 1 through the batch
endpoint; the cart row disappears, and a buy-now on the same state would leave
the cart as it was. -/
theorem purchase_clears_buyer_cart_witness :
    (purchase dbAvail 2 (some [1])).1 = PurchaseResponse.success 1 ∧
    ((∀ q ∈ [1], ∀ e ∈ (purchase dbAvail 2 (some [1])).2.cart,
        ¬ (e.user_id = 2 ∧ e.product_id = q)) ∧
      (buyNow dbAvail 2 (some 1) (some "upi")).2.cart = dbAvail.cart) :=
  ⟨by decide,
   purchase_clears_buyer_cart dbAvail 2 1 [1] (some 1) (some "upi") (by decide)⟩

/-- C7 counterexample: with product 2 already sold, a later buy-now by user 2
is rejected with the not-found-or-unavailable error whose HTTP status is 404,
not the 400 the claim states. -/
theorem buyNow_sold_not_400 :
    (buyNow dbTwo 2 (some 2) (some "card")).1
      = BuyNowResponse.notFoundOrUnavailable ∧
    ¬ BuyNowResponse.httpStatus (buyNow dbTwo 2 (some 2) (some "card")).1
        = 400 := by
  decide

/-- C7 amended: once every product carrying the requested id is sold, a
subsequent buy-now fails with the combined Product-not-found-or-unavailable
error, surfaced with HTTP status 404 (the handler cannot distinguish a missing
product from a sold one), and the state is unchanged. -/
theorem buyNow_sold_404 (db : DB) (u pid : Nat) (pm : String)
    (hall : ∀ q ∈ db.products, q.id = pid → q.status = Status.sold) :
    buyNow db u (some pid) (some pm)
      = (BuyNowResponse.notFoundOrUnavailable, db) ∧
    BuyNowResponse.httpStatus (buyNow db u (some pid) (some pm)).1 = 404 := by
  have hc : buyNowCheckPhase db u pid = BuyNowCheck.unavailable := by
    unfold buyNowCheckPhase
    rw [getAvailableProduct_none hall]
  constructor
  · simp [buyNow, hc]
  · simp [buyNow, hc, BuyNowResponse.httpStatus]

/-- Witness for the amended C7 at the state where product 2 is sold. -/
theorem buyNow_sold_404_witness :
    (∀ q ∈ dbTwo.products, q.id = 2 → q.status = Status.sold) ∧
    (buyNow dbTwo 2 (some 2) (some "card")
        = (BuyNowResponse.notFoundOrUnavailable, dbTwo) ∧
      BuyNowResponse.httpStatus (buyNow dbTwo 2 (some 2) (some "card")).1
        = 404) :=
  ⟨by decide, buyNow_sold_404 dbTwo 2 2 "card" (by decide)⟩

/-- C8 counterexample: the 400 answer to a purchase with an empty product_ids
array carries only the error field — its body has no details array, against
the claim that purchase failures carry an error-with-details body. -/
theorem empty_ids_no_details :
    (purchase dbAvail 1 (some [])).1 = PurchaseResponse.missingProductIds ∧
    PurchaseResponse.detailsField (purchase dbAvail 1 (some [])).1 = none ∧
    PurchaseResponse.httpStatus (purchase dbAvail 1 (some [])).1 = some 400 := by
  decide

/-- C8 amended: malformed input — product_ids missing, not an array, or empty,
product_id or payment_method missing — is rejected with a 400 validation error
and no state change; the malformed-input body carries the error field only,
the details array appearing just on batch-validation failures. -/
theorem malformed_input_rejected (db : DB) (u q : Nat) (pm : Option String) :
    purchase db u none = (PurchaseResponse.missingProductIds, db) ∧
    purchase db u (some []) = (PurchaseResponse.missingProductIds, db) ∧
    PurchaseResponse.httpStatus PurchaseResponse.missingProductIds = some 400 ∧
    PurchaseResponse.errorMsg PurchaseResponse.missingProductIds
      = some "Product IDs array is required" ∧
    PurchaseResponse.detailsField PurchaseResponse.missingProductIds = none ∧
    buyNow db u none pm = (BuyNowResponse.missingProductId, db) ∧
    buyNow db u (some q) none = (BuyNowResponse.missingPaymentMethod, db) ∧
    BuyNowResponse.httpStatus BuyNowResponse.missingProductId = 400 ∧
    BuyNowResponse.httpStatus BuyNowResponse.missingPaymentMethod = 400 := by
  refine ⟨rfl, ?_, rfl, rfl, rfl, rfl, rfl, rfl, rfl⟩
  rfl

/-- C9: a single batch listing the same available product twice passes both
SELECT checks against the pre-transaction state, queues two INSERTs, and
commits — the response reports two purchases and two purchase rows reference
product 1, breaking the at-most-one-purchase-per-product invariant. -/
theorem duplicate_ids_double_sale :
    (purchase dbAvail 2 (some [1, 1])).1 = PurchaseResponse.success 2 ∧
    purchaseCount (purchase dbAvail 2 (some [1, 1])).2 1 = 2 := by
  decide

/-- C10: the delete operation of the owner removes the product with no condition on its
status, leaves every purchase row in place, and afterwards no purchase
history entry of any buyer references the deleted product id, because the
history query inner-joins purchases to products. -/
theorem deleteProduct_ignores_status_orphans_history
    (db : DB) (uid : Nat) (p : Product)
    (hp : p ∈ db.products) (hown : p.user_id = uid)
    (huniq : ∀ q ∈ db.products, q.id = p.id → q.user_id = uid) :
    (deleteProduct db uid p.id).1 = DeleteResponse.deleted ∧
    (deleteProduct db uid p.id).2.purchases = db.purchases ∧
    (∀ q ∈ (deleteProduct db uid p.id).2.products, ¬ q.id = p.id) ∧
    (∀ b : Nat, ∀ e ∈ purchaseHistory (deleteProduct db uid p.id).2 b,
      ¬ e.1.product_id = p.id) := by
  have hdel : deleteProduct db uid p.id
      = (DeleteResponse.deleted,
         { db with
            products := db.products.filter
              (fun q => !(decide (q.id = p.id ∧ q.user_id = uid))) }) := by
    simp [deleteProduct]
    exact ⟨p, hp, rfl, hown⟩
  have hprodne :
      ∀ q ∈ (deleteProduct db uid p.id).2.products, ¬ q.id = p.id := by
    intro q hq hid
    rw [hdel] at hq
    have hq' : q ∈ db.products.filter
        (fun r => !(decide (r.id = p.id ∧ r.user_id = uid))) := hq
    obtain ⟨hqmem, hqpred⟩ := List.mem_filter.mp hq'
    have huid := huniq q hqmem hid
    simp [hid, huid] at hqpred
  refine ⟨by rw [hdel], by rw [hdel], hprodne, ?_⟩
  intro b e he hcontra
  have he' : e ∈ (deleteProduct db uid p.id).2.purchases.filterMap
      (historyRow (deleteProduct db uid p.id).2 b) := he
  obtain ⟨pu, hpu, hrow⟩ := List.mem_filterMap.mp he'
  obtain ⟨he1, he2mem, he2id⟩ := historyRow_some hrow
  apply hprodne e.2 he2mem
  rw [he2id, ← he1]
  exact hcontra

/-- Witness for C10: user 1 deletes the sold product 2; the purchase row
stays, and the history of buyer 3, which listed the product before the delete,
is empty afterwards. -/
theorem deleteProduct_ignores_status_orphans_history_witness :
    ((⟨2, 1, 7, Status.sold⟩ : Product) ∈ dbTwo.products ∧
      (⟨2, 1, 7, Status.sold⟩ : Product).user_id = 1 ∧
      (∀ q ∈ dbTwo.products, q.id = 2 → q.user_id = 1)) ∧
    purchaseHistory dbTwo 3
      = [(⟨1, 3, 2, 1, 7⟩, ⟨2, 1, 7, Status.sold⟩)] ∧
    purchaseHistory (deleteProduct dbTwo 1 2).2 3 = [] ∧
    ((deleteProduct dbTwo 1 2).1 = DeleteResponse.deleted ∧
      (deleteProduct dbTwo 1 2).2.purchases = dbTwo.purchases ∧
      (∀ q ∈ (deleteProduct dbTwo 1 2).2.products, ¬ q.id = 2) ∧
      (∀ b : Nat, ∀ e ∈ purchaseHistory (deleteProduct dbTwo 1 2).2 b,
        ¬ e.1.product_id = 2)) :=
  ⟨⟨by decide, by decide, by decide⟩, by decide, by decide,
   deleteProduct_ignores_status_orphans_history dbTwo 1 ⟨2, 1, 7, Status.sold⟩
     (by decide) (by decide) (by decide)⟩

end EcoFinds
